import Mathlib

/-!
Verification of the generated TypeScript bindings of the infinity-swap
contracts (`InfinityPool.types.ts` and the router types file).

The two source files declare only data shapes: request messages, response
messages and enumerated string unions that mirror the contracts' JSON
schema.  We embed every declared shape as a Lean structure or inductive
type, give each one a JSON encoder and decoder following the shape
declaration field by field, and prove the structural properties the
specification states: round-trip identity, rejection of malformed input,
string representation of large integers, closedness of the string unions,
and single-key dispatch of the tagged message unions.
-/

/-- A JSON value.  TypeScript `number` fields of the generated bindings are
integer-valued (ids, limits), so numbers are modelled as `Int`. -/
inductive Json where
  | null : Json
  | bool : Bool → Json
  | num : Int → Json
  | str : String → Json
  | arr : List Json → Json
  | obj : List (String × Json) → Json
  deriving Repr

/-- Assoc-list lookup of a field of a JSON object. -/
def lookupField : List (String × Json) → String → Option Json
  | [], _ => none
  | (k, v) :: rest, name => if k = name then some v else lookupField rest name

/-- Look a field up in a JSON value; `none` unless the value is an object
that has the field. -/
def Json.getField : Json → String → Option Json
  | Json.obj fields, name => lookupField fields name
  | _, _ => none

/-- The field names of a JSON object, in order. -/
def Json.keys : Json → List String
  | Json.obj fields => fields.map Prod.fst
  | _ => []

def Json.asStr : Json → Option String
  | Json.str s => some s
  | _ => none

def Json.asNum : Json → Option Int
  | Json.num n => some n
  | _ => none

def Json.asBool : Json → Option Bool
  | Json.bool b => some b
  | _ => none

def Json.asArr : Json → Option (List Json)
  | Json.arr xs => some xs
  | _ => none

/-- Decode a required field: fails when the field is absent or when the
field decoder fails. -/
def decField (j : Json) (name : String) (dec : Json → Option α) : Option α :=
  (j.getField name).bind dec

/-- Decode a nullable JSON value: `null` is `none`, anything else goes
through the element decoder. -/
def decOpt (dec : Json → Option α) : Json → Option (Option α)
  | Json.null => some none
  | v => (dec v).map some

/-- Decode an optional (`field?: T | null`) field: an absent field and an
explicit `null` both give `none`; a present non-null value must decode. -/
def optField (j : Json) (name : String) (dec : Json → Option α) : Option (Option α) :=
  match j.getField name with
  | none => some none
  | some v => decOpt dec v

/-- Encode an optional field's value, `none` becoming an explicit `null`. -/
def encOpt (enc : α → Json) : Option α → Json
  | none => Json.null
  | some a => enc a

/-- Decode every element of a JSON array, failing if any element fails. -/
def decodeList (dec : Json → Option α) : List Json → Option (List α)
  | [] => some []
  | j :: js =>
    match dec j, decodeList dec js with
    | some a, some as => some (a :: as)
    | _, _ => none

/-- Decode a JSON array field value. -/
def decArr (dec : Json → Option α) : Json → Option (List α) :=
  fun j => (Json.asArr j).bind (decodeList dec)

/-- `export type Addr = string;` (both files). -/
abbrev Addr := String

/-- `export type Uint128 = string;` (both files): a 128-bit integer carried
as a decimal string. -/
abbrev Uint128 := String

/-- `export type Uint64 = string;` -/
abbrev Uint64 := String

/-- `export type Decimal = string;` -/
abbrev Decimal := String

/-- `export type Timestamp = Uint64;` -/
abbrev Timestamp := Uint64

namespace InfinityPool

/-- `export interface Config` of `InfinityPool.types.ts`. -/
structure Config where
  denom : String
  developer : Option Addr
  marketplace_addr : Addr
  deriving DecidableEq, Repr

/-- `export interface ConfigResponse`. -/
structure ConfigResponse where
  config : Config
  deriving DecidableEq, Repr

/-- `export interface InstantiateMsg` of the pool contract. -/
structure InstantiateMsg where
  denom : String
  developer : Option String
  marketplace_addr : String
  deriving DecidableEq, Repr

/-- `export interface NftSwap`. -/
structure NftSwap where
  nft_token_id : String
  token_amount : Uint128
  deriving DecidableEq, Repr

/-- `export type BondingCurve = "linear" | "exponential" | "constant_product";` -/
inductive BondingCurve where
  | linear
  | exponential
  | constant_product
  deriving DecidableEq, Repr

/-- `export type PoolType = "token" | "nft" | "trade";` -/
inductive PoolType where
  | token
  | nft
  | trade
  deriving DecidableEq, Repr

/-- `export interface PoolInfo`. -/
structure PoolInfo where
  asset_recipient : Option Addr
  bonding_curve : BondingCurve
  collection : Addr
  delta : Uint128
  finders_fee_percent : Decimal
  pool_type : PoolType
  reinvest_nfts : Bool
  reinvest_tokens : Bool
  spot_price : Uint128
  swap_fee_percent : Decimal
  deriving DecidableEq, Repr

/-- `export interface PoolNftSwap`. -/
structure PoolNftSwap where
  nft_swaps : List NftSwap
  pool_id : Int
  deriving DecidableEq, Repr

/-- `export interface PoolQuote`. -/
structure PoolQuote where
  collection : Addr
  id : Int
  quote_price : Uint128
  deriving DecidableEq, Repr

/-- `export interface PoolQuoteResponse`. -/
structure PoolQuoteResponse where
  pool_quotes : List PoolQuote
  deriving DecidableEq, Repr

/-- `export interface Pool`. -/
structure Pool where
  asset_recipient : Option Addr
  bonding_curve : BondingCurve
  collection : Addr
  delta : Uint128
  finders_fee_percent : Decimal
  id : Int
  is_active : Bool
  nft_token_ids : List String
  owner : Addr
  pool_type : PoolType
  reinvest_nfts : Bool
  reinvest_tokens : Bool
  spot_price : Uint128
  swap_fee_percent : Decimal
  total_tokens : Uint128
  deriving DecidableEq, Repr

/-- `export interface PoolsByIdResponse`: each entry pairs the queried id
with `Pool | null`. -/
structure PoolsByIdResponse where
  pools : List (Int × Option Pool)
  deriving DecidableEq, Repr

/-- `export interface PoolsResponse`. -/
structure PoolsResponse where
  pools : List Pool
  deriving DecidableEq, Repr

/-- `export interface QueryOptionsForTupleOfUint128AndUint64`. -/
structure QueryOptionsForTupleOfUint128AndUint64 where
  descending : Option Bool
  limit : Option Int
  start_after : Option (Uint128 × Int)
  deriving DecidableEq, Repr

/-- `export interface QueryOptionsForUint64`. -/
structure QueryOptionsForUint64 where
  descending : Option Bool
  limit : Option Int
  start_after : Option Int
  deriving DecidableEq, Repr

/-- `export interface SwapParams` of the pool contract: both fields
required. -/
structure SwapParams where
  deadline : Timestamp
  robust : Bool
  deriving DecidableEq, Repr

/-- `export type TransactionType = "sell" | "buy";` -/
inductive TransactionType where
  | sell
  | buy
  deriving DecidableEq, Repr

/-- `export interface TokenPayment`. -/
structure TokenPayment where
  address : String
  amount : Uint128
  deriving DecidableEq, Repr

/-- `export interface NftPayment`. -/
structure NftPayment where
  address : String
  nft_token_id : String
  deriving DecidableEq, Repr

/-- `export interface Swap`. -/
structure Swap where
  finder_payment : Option TokenPayment
  network_fee : Uint128
  nft_payment : Option NftPayment
  pool_id : Int
  royalty_payment : Option TokenPayment
  seller_payment : Option TokenPayment
  spot_price : Uint128
  transaction_type : TransactionType
  deriving DecidableEq, Repr

/-- `export interface SwapResponse`. -/
structure SwapResponse where
  swaps : List Swap
  deriving DecidableEq, Repr

end InfinityPool

namespace InfinityRouter

/-- `export interface InstantiateMsg` of the router contract. -/
structure InstantiateMsg where
  infinity_global : String
  deriving DecidableEq, Repr

/-- `export type NftForTokensSource = "infinity";` -/
inductive NftForTokensSource where
  | infinity
  deriving DecidableEq, Repr

/-- `export type TokensForNftSource = "infinity";` -/
inductive TokensForNftSource where
  | infinity
  deriving DecidableEq, Repr

/-- `export interface SellOrder`. -/
structure SellOrder where
  input_token_id : String
  min_output : Uint128
  deriving DecidableEq, Repr

/-- `export interface SwapParamsForString`: both fields optional, no
deadline. -/
structure SwapParamsForString where
  asset_recipient : Option String
  robust : Option Bool
  deriving DecidableEq, Repr

/-- `export type ExecuteMsg = { swap_nfts_for_tokens: ... } |
{ swap_tokens_for_nfts: ... };` -/
inductive ExecuteMsg where
  | swap_nfts_for_tokens
      (collection : String) (denom : String)
      (filter_sources : Option (List NftForTokensSource))
      (sell_orders : List SellOrder)
      (swap_params : Option SwapParamsForString)
  | swap_tokens_for_nfts
      (collection : String) (denom : String)
      (filter_sources : Option (List TokensForNftSource))
      (max_inputs : List Uint128)
      (swap_params : Option SwapParamsForString)
  deriving DecidableEq, Repr

/-- `export type QueryMsg = { nfts_for_tokens: ... } |
{ tokens_for_nfts: ... };` -/
inductive QueryMsg where
  | nfts_for_tokens
      (collection : String) (denom : String)
      (filter_sources : Option (List NftForTokensSource))
      (limit : Int)
  | tokens_for_nfts
      (collection : String) (denom : String)
      (filter_sources : Option (List TokensForNftSource))
      (limit : Int)
  deriving DecidableEq, Repr

/-- `export interface NftForTokensQuote`. -/
structure NftForTokensQuote where
  address : Addr
  amount : Uint128
  source : NftForTokensSource
  deriving DecidableEq, Repr

/-- `export interface TokensForNftQuote`. -/
structure TokensForNftQuote where
  address : Addr
  amount : Uint128
  source : TokensForNftSource
  deriving DecidableEq, Repr

/-- `export type ArrayOfNftForTokensQuote = NftForTokensQuote[];` -/
abbrev ArrayOfNftForTokensQuote := List NftForTokensQuote

/-- `export type ArrayOfTokensForNftQuote = TokensForNftQuote[];` -/
abbrev ArrayOfTokensForNftQuote := List TokensForNftQuote

end InfinityRouter

namespace InfinityPool

def encodeConfig (c : Config) : Json :=
  Json.obj [("denom", Json.str c.denom),
            ("developer", encOpt Json.str c.developer),
            ("marketplace_addr", Json.str c.marketplace_addr)]

def decodeConfig (j : Json) : Option Config :=
  (decField j "denom" Json.asStr).bind fun denom =>
  (optField j "developer" Json.asStr).bind fun developer =>
  (decField j "marketplace_addr" Json.asStr).bind fun marketplace_addr =>
  some ⟨denom, developer, marketplace_addr⟩

def encodeConfigResponse (c : ConfigResponse) : Json :=
  Json.obj [("config", encodeConfig c.config)]

def decodeConfigResponse (j : Json) : Option ConfigResponse :=
  (decField j "config" decodeConfig).bind fun config =>
  some ⟨config⟩

def encodeInstantiateMsg (m : InstantiateMsg) : Json :=
  Json.obj [("denom", Json.str m.denom),
            ("developer", encOpt Json.str m.developer),
            ("marketplace_addr", Json.str m.marketplace_addr)]

def decodeInstantiateMsg (j : Json) : Option InstantiateMsg :=
  (decField j "denom" Json.asStr).bind fun denom =>
  (optField j "developer" Json.asStr).bind fun developer =>
  (decField j "marketplace_addr" Json.asStr).bind fun marketplace_addr =>
  some ⟨denom, developer, marketplace_addr⟩

def encodeNftSwap (s : NftSwap) : Json :=
  Json.obj [("nft_token_id", Json.str s.nft_token_id),
            ("token_amount", Json.str s.token_amount)]

def decodeNftSwap (j : Json) : Option NftSwap :=
  (decField j "nft_token_id" Json.asStr).bind fun nft_token_id =>
  (decField j "token_amount" Json.asStr).bind fun token_amount =>
  some ⟨nft_token_id, token_amount⟩

def encodeBondingCurve : BondingCurve → Json
  | BondingCurve.linear => Json.str "linear"
  | BondingCurve.exponential => Json.str "exponential"
  | BondingCurve.constant_product => Json.str "constant_product"

def decodeBondingCurve : Json → Option BondingCurve
  | Json.str s =>
    if s = "linear" then some BondingCurve.linear
    else if s = "exponential" then some BondingCurve.exponential
    else if s = "constant_product" then some BondingCurve.constant_product
    else none
  | _ => none

def encodePoolType : PoolType → Json
  | PoolType.token => Json.str "token"
  | PoolType.nft => Json.str "nft"
  | PoolType.trade => Json.str "trade"

def decodePoolType : Json → Option PoolType
  | Json.str s =>
    if s = "token" then some PoolType.token
    else if s = "nft" then some PoolType.nft
    else if s = "trade" then some PoolType.trade
    else none
  | _ => none

def encodePoolInfo (p : PoolInfo) : Json :=
  Json.obj [("asset_recipient", encOpt Json.str p.asset_recipient),
            ("bonding_curve", encodeBondingCurve p.bonding_curve),
            ("collection", Json.str p.collection),
            ("delta", Json.str p.delta),
            ("finders_fee_percent", Json.str p.finders_fee_percent),
            ("pool_type", encodePoolType p.pool_type),
            ("reinvest_nfts", Json.bool p.reinvest_nfts),
            ("reinvest_tokens", Json.bool p.reinvest_tokens),
            ("spot_price", Json.str p.spot_price),
            ("swap_fee_percent", Json.str p.swap_fee_percent)]

def decodePoolInfo (j : Json) : Option PoolInfo :=
  (optField j "asset_recipient" Json.asStr).bind fun asset_recipient =>
  (decField j "bonding_curve" decodeBondingCurve).bind fun bonding_curve =>
  (decField j "collection" Json.asStr).bind fun collection =>
  (decField j "delta" Json.asStr).bind fun delta =>
  (decField j "finders_fee_percent" Json.asStr).bind fun finders_fee_percent =>
  (decField j "pool_type" decodePoolType).bind fun pool_type =>
  (decField j "reinvest_nfts" Json.asBool).bind fun reinvest_nfts =>
  (decField j "reinvest_tokens" Json.asBool).bind fun reinvest_tokens =>
  (decField j "spot_price" Json.asStr).bind fun spot_price =>
  (decField j "swap_fee_percent" Json.asStr).bind fun swap_fee_percent =>
  some ⟨asset_recipient, bonding_curve, collection, delta, finders_fee_percent,
        pool_type, reinvest_nfts, reinvest_tokens, spot_price, swap_fee_percent⟩

def encodePoolNftSwap (p : PoolNftSwap) : Json :=
  Json.obj [("nft_swaps", Json.arr (p.nft_swaps.map encodeNftSwap)),
            ("pool_id", Json.num p.pool_id)]

def decodePoolNftSwap (j : Json) : Option PoolNftSwap :=
  (decField j "nft_swaps" (decArr decodeNftSwap)).bind fun nft_swaps =>
  (decField j "pool_id" Json.asNum).bind fun pool_id =>
  some ⟨nft_swaps, pool_id⟩

def encodePoolQuote (q : PoolQuote) : Json :=
  Json.obj [("collection", Json.str q.collection),
            ("id", Json.num q.id),
            ("quote_price", Json.str q.quote_price)]

def decodePoolQuote (j : Json) : Option PoolQuote :=
  (decField j "collection" Json.asStr).bind fun collection =>
  (decField j "id" Json.asNum).bind fun id =>
  (decField j "quote_price" Json.asStr).bind fun quote_price =>
  some ⟨collection, id, quote_price⟩

def encodePoolQuoteResponse (r : PoolQuoteResponse) : Json :=
  Json.obj [("pool_quotes", Json.arr (r.pool_quotes.map encodePoolQuote))]

def decodePoolQuoteResponse (j : Json) : Option PoolQuoteResponse :=
  (decField j "pool_quotes" (decArr decodePoolQuote)).bind fun pool_quotes =>
  some ⟨pool_quotes⟩

def encodePool (p : Pool) : Json :=
  Json.obj [("asset_recipient", encOpt Json.str p.asset_recipient),
            ("bonding_curve", encodeBondingCurve p.bonding_curve),
            ("collection", Json.str p.collection),
            ("delta", Json.str p.delta),
            ("finders_fee_percent", Json.str p.finders_fee_percent),
            ("id", Json.num p.id),
            ("is_active", Json.bool p.is_active),
            ("nft_token_ids", Json.arr (p.nft_token_ids.map Json.str)),
            ("owner", Json.str p.owner),
            ("pool_type", encodePoolType p.pool_type),
            ("reinvest_nfts", Json.bool p.reinvest_nfts),
            ("reinvest_tokens", Json.bool p.reinvest_tokens),
            ("spot_price", Json.str p.spot_price),
            ("swap_fee_percent", Json.str p.swap_fee_percent),
            ("total_tokens", Json.str p.total_tokens)]

def decodePool (j : Json) : Option Pool :=
  (optField j "asset_recipient" Json.asStr).bind fun asset_recipient =>
  (decField j "bonding_curve" decodeBondingCurve).bind fun bonding_curve =>
  (decField j "collection" Json.asStr).bind fun collection =>
  (decField j "delta" Json.asStr).bind fun delta =>
  (decField j "finders_fee_percent" Json.asStr).bind fun finders_fee_percent =>
  (decField j "id" Json.asNum).bind fun id =>
  (decField j "is_active" Json.asBool).bind fun is_active =>
  (decField j "nft_token_ids" (decArr Json.asStr)).bind fun nft_token_ids =>
  (decField j "owner" Json.asStr).bind fun owner =>
  (decField j "pool_type" decodePoolType).bind fun pool_type =>
  (decField j "reinvest_nfts" Json.asBool).bind fun reinvest_nfts =>
  (decField j "reinvest_tokens" Json.asBool).bind fun reinvest_tokens =>
  (decField j "spot_price" Json.asStr).bind fun spot_price =>
  (decField j "swap_fee_percent" Json.asStr).bind fun swap_fee_percent =>
  (decField j "total_tokens" Json.asStr).bind fun total_tokens =>
  some ⟨asset_recipient, bonding_curve, collection, delta, finders_fee_percent,
        id, is_active, nft_token_ids, owner, pool_type, reinvest_nfts,
        reinvest_tokens, spot_price, swap_fee_percent, total_tokens⟩

/-- Encode one `[number, Pool | null]` entry of `PoolsByIdResponse.pools`. -/
def encodePoolPair (p : Int × Option Pool) : Json :=
  Json.arr [Json.num p.1, encOpt encodePool p.2]

def decodePoolPair : Json → Option (Int × Option Pool)
  | Json.arr [a, b] =>
    (Json.asNum a).bind fun id =>
    (decOpt decodePool b).bind fun p =>
    some (id, p)
  | _ => none

def encodePoolsByIdResponse (r : PoolsByIdResponse) : Json :=
  Json.obj [("pools", Json.arr (r.pools.map encodePoolPair))]

def decodePoolsByIdResponse (j : Json) : Option PoolsByIdResponse :=
  (decField j "pools" (decArr decodePoolPair)).bind fun pools =>
  some ⟨pools⟩

def encodePoolsResponse (r : PoolsResponse) : Json :=
  Json.obj [("pools", Json.arr (r.pools.map encodePool))]

def decodePoolsResponse (j : Json) : Option PoolsResponse :=
  (decField j "pools" (decArr decodePool)).bind fun pools =>
  some ⟨pools⟩

/-- Encode the `[Uint128, number]` cursor tuple. -/
def encodeU128U64Tuple (t : Uint128 × Int) : Json :=
  Json.arr [Json.str t.1, Json.num t.2]

def decodeU128U64Tuple : Json → Option (Uint128 × Int)
  | Json.arr [a, b] =>
    (Json.asStr a).bind fun u =>
    (Json.asNum b).bind fun n =>
    some (u, n)
  | _ => none

def encodeQueryOptionsForTupleOfUint128AndUint64
    (q : QueryOptionsForTupleOfUint128AndUint64) : Json :=
  Json.obj [("descending", encOpt Json.bool q.descending),
            ("limit", encOpt Json.num q.limit),
            ("start_after", encOpt encodeU128U64Tuple q.start_after)]

def decodeQueryOptionsForTupleOfUint128AndUint64 (j : Json) :
    Option QueryOptionsForTupleOfUint128AndUint64 :=
  (optField j "descending" Json.asBool).bind fun descending =>
  (optField j "limit" Json.asNum).bind fun limit =>
  (optField j "start_after" decodeU128U64Tuple).bind fun start_after =>
  some ⟨descending, limit, start_after⟩

def encodeQueryOptionsForUint64 (q : QueryOptionsForUint64) : Json :=
  Json.obj [("descending", encOpt Json.bool q.descending),
            ("limit", encOpt Json.num q.limit),
            ("start_after", encOpt Json.num q.start_after)]

def decodeQueryOptionsForUint64 (j : Json) : Option QueryOptionsForUint64 :=
  (optField j "descending" Json.asBool).bind fun descending =>
  (optField j "limit" Json.asNum).bind fun limit =>
  (optField j "start_after" Json.asNum).bind fun start_after =>
  some ⟨descending, limit, start_after⟩

def encodeSwapParams (p : SwapParams) : Json :=
  Json.obj [("deadline", Json.str p.deadline),
            ("robust", Json.bool p.robust)]

def decodeSwapParams (j : Json) : Option SwapParams :=
  (decField j "deadline" Json.asStr).bind fun deadline =>
  (decField j "robust" Json.asBool).bind fun robust =>
  some ⟨deadline, robust⟩

def encodeTransactionType : TransactionType → Json
  | TransactionType.sell => Json.str "sell"
  | TransactionType.buy => Json.str "buy"

def decodeTransactionType : Json → Option TransactionType
  | Json.str s =>
    if s = "sell" then some TransactionType.sell
    else if s = "buy" then some TransactionType.buy
    else none
  | _ => none

def encodeTokenPayment (p : TokenPayment) : Json :=
  Json.obj [("address", Json.str p.address),
            ("amount", Json.str p.amount)]

def decodeTokenPayment (j : Json) : Option TokenPayment :=
  (decField j "address" Json.asStr).bind fun address =>
  (decField j "amount" Json.asStr).bind fun amount =>
  some ⟨address, amount⟩

def encodeNftPayment (p : NftPayment) : Json :=
  Json.obj [("address", Json.str p.address),
            ("nft_token_id", Json.str p.nft_token_id)]

def decodeNftPayment (j : Json) : Option NftPayment :=
  (decField j "address" Json.asStr).bind fun address =>
  (decField j "nft_token_id" Json.asStr).bind fun nft_token_id =>
  some ⟨address, nft_token_id⟩

def encodeSwap (s : Swap) : Json :=
  Json.obj [("finder_payment", encOpt encodeTokenPayment s.finder_payment),
            ("network_fee", Json.str s.network_fee),
            ("nft_payment", encOpt encodeNftPayment s.nft_payment),
            ("pool_id", Json.num s.pool_id),
            ("royalty_payment", encOpt encodeTokenPayment s.royalty_payment),
            ("seller_payment", encOpt encodeTokenPayment s.seller_payment),
            ("spot_price", Json.str s.spot_price),
            ("transaction_type", encodeTransactionType s.transaction_type)]

def decodeSwap (j : Json) : Option Swap :=
  (optField j "finder_payment" decodeTokenPayment).bind fun finder_payment =>
  (decField j "network_fee" Json.asStr).bind fun network_fee =>
  (optField j "nft_payment" decodeNftPayment).bind fun nft_payment =>
  (decField j "pool_id" Json.asNum).bind fun pool_id =>
  (optField j "royalty_payment" decodeTokenPayment).bind fun royalty_payment =>
  (optField j "seller_payment" decodeTokenPayment).bind fun seller_payment =>
  (decField j "spot_price" Json.asStr).bind fun spot_price =>
  (decField j "transaction_type" decodeTransactionType).bind fun transaction_type =>
  some ⟨finder_payment, network_fee, nft_payment, pool_id, royalty_payment,
        seller_payment, spot_price, transaction_type⟩

def encodeSwapResponse (r : SwapResponse) : Json :=
  Json.obj [("swaps", Json.arr (r.swaps.map encodeSwap))]

def decodeSwapResponse (j : Json) : Option SwapResponse :=
  (decField j "swaps" (decArr decodeSwap)).bind fun swaps =>
  some ⟨swaps⟩

/-- The number of payment breakdowns present in a `Swap`. -/
def numPayments (s : Swap) : Nat :=
  (if s.finder_payment.isSome then 1 else 0) +
  (if s.nft_payment.isSome then 1 else 0) +
  (if s.royalty_payment.isSome then 1 else 0) +
  (if s.seller_payment.isSome then 1 else 0)

end InfinityPool

namespace InfinityRouter

def encodeInstantiateMsg (m : InstantiateMsg) : Json :=
  Json.obj [("infinity_global", Json.str m.infinity_global)]

def decodeInstantiateMsg (j : Json) : Option InstantiateMsg :=
  (decField j "infinity_global" Json.asStr).bind fun infinity_global =>
  some ⟨infinity_global⟩

def encodeNftForTokensSource : NftForTokensSource → Json
  | NftForTokensSource.infinity => Json.str "infinity"

def decodeNftForTokensSource : Json → Option NftForTokensSource
  | Json.str s =>
    if s = "infinity" then some NftForTokensSource.infinity else none
  | _ => none

def encodeTokensForNftSource : TokensForNftSource → Json
  | TokensForNftSource.infinity => Json.str "infinity"

def decodeTokensForNftSource : Json → Option TokensForNftSource
  | Json.str s =>
    if s = "infinity" then some TokensForNftSource.infinity else none
  | _ => none

def encodeSellOrder (o : SellOrder) : Json :=
  Json.obj [("input_token_id", Json.str o.input_token_id),
            ("min_output", Json.str o.min_output)]

def decodeSellOrder (j : Json) : Option SellOrder :=
  (decField j "input_token_id" Json.asStr).bind fun input_token_id =>
  (decField j "min_output" Json.asStr).bind fun min_output =>
  some ⟨input_token_id, min_output⟩

def encodeSwapParamsForString (p : SwapParamsForString) : Json :=
  Json.obj [("asset_recipient", encOpt Json.str p.asset_recipient),
            ("robust", encOpt Json.bool p.robust)]

def decodeSwapParamsForString (j : Json) : Option SwapParamsForString :=
  (optField j "asset_recipient" Json.asStr).bind fun asset_recipient =>
  (optField j "robust" Json.asBool).bind fun robust =>
  some ⟨asset_recipient, robust⟩

def encodeExecuteMsg : ExecuteMsg → Json
  | ExecuteMsg.swap_nfts_for_tokens collection denom filter_sources sell_orders swap_params =>
    Json.obj [("swap_nfts_for_tokens",
      Json.obj [("collection", Json.str collection),
                ("denom", Json.str denom),
                ("filter_sources",
                  encOpt (fun xs => Json.arr (xs.map encodeNftForTokensSource)) filter_sources),
                ("sell_orders", Json.arr (sell_orders.map encodeSellOrder)),
                ("swap_params", encOpt encodeSwapParamsForString swap_params)])]
  | ExecuteMsg.swap_tokens_for_nfts collection denom filter_sources max_inputs swap_params =>
    Json.obj [("swap_tokens_for_nfts",
      Json.obj [("collection", Json.str collection),
                ("denom", Json.str denom),
                ("filter_sources",
                  encOpt (fun xs => Json.arr (xs.map encodeTokensForNftSource)) filter_sources),
                ("max_inputs", Json.arr (max_inputs.map Json.str)),
                ("swap_params", encOpt encodeSwapParamsForString swap_params)])]

/-- Decode the body of the `swap_nfts_for_tokens` variant. -/
def decodeSwapNftsForTokensBody (v : Json) : Option ExecuteMsg :=
  (decField v "collection" Json.asStr).bind fun collection =>
  (decField v "denom" Json.asStr).bind fun denom =>
  (optField v "filter_sources" (decArr decodeNftForTokensSource)).bind fun filter_sources =>
  (decField v "sell_orders" (decArr decodeSellOrder)).bind fun sell_orders =>
  (optField v "swap_params" decodeSwapParamsForString).bind fun swap_params =>
  some (ExecuteMsg.swap_nfts_for_tokens collection denom filter_sources sell_orders swap_params)

/-- Decode the body of the `swap_tokens_for_nfts` variant. -/
def decodeSwapTokensForNftsBody (v : Json) : Option ExecuteMsg :=
  (decField v "collection" Json.asStr).bind fun collection =>
  (decField v "denom" Json.asStr).bind fun denom =>
  (optField v "filter_sources" (decArr decodeTokensForNftSource)).bind fun filter_sources =>
  (decField v "max_inputs" (decArr Json.asStr)).bind fun max_inputs =>
  (optField v "swap_params" decodeSwapParamsForString).bind fun swap_params =>
  some (ExecuteMsg.swap_tokens_for_nfts collection denom filter_sources max_inputs swap_params)

/-- A tagged-union message is a JSON object with exactly one key, the
variant name, as serde serializes a Rust enum. -/
def decodeExecuteMsg : Json → Option ExecuteMsg
  | Json.obj [(k, v)] =>
    if k = "swap_nfts_for_tokens" then decodeSwapNftsForTokensBody v
    else if k = "swap_tokens_for_nfts" then decodeSwapTokensForNftsBody v
    else none
  | _ => none

def encodeQueryMsg : QueryMsg → Json
  | QueryMsg.nfts_for_tokens collection denom filter_sources limit =>
    Json.obj [("nfts_for_tokens",
      Json.obj [("collection", Json.str collection),
                ("denom", Json.str denom),
                ("filter_sources",
                  encOpt (fun xs => Json.arr (xs.map encodeNftForTokensSource)) filter_sources),
                ("limit", Json.num limit)])]
  | QueryMsg.tokens_for_nfts collection denom filter_sources limit =>
    Json.obj [("tokens_for_nfts",
      Json.obj [("collection", Json.str collection),
                ("denom", Json.str denom),
                ("filter_sources",
                  encOpt (fun xs => Json.arr (xs.map encodeTokensForNftSource)) filter_sources),
                ("limit", Json.num limit)])]

/-- Decode the body of the `nfts_for_tokens` variant. -/
def decodeNftsForTokensBody (v : Json) : Option QueryMsg :=
  (decField v "collection" Json.asStr).bind fun collection =>
  (decField v "denom" Json.asStr).bind fun denom =>
  (optField v "filter_sources" (decArr decodeNftForTokensSource)).bind fun filter_sources =>
  (decField v "limit" Json.asNum).bind fun limit =>
  some (QueryMsg.nfts_for_tokens collection denom filter_sources limit)

/-- Decode the body of the `tokens_for_nfts` variant. -/
def decodeTokensForNftsBody (v : Json) : Option QueryMsg :=
  (decField v "collection" Json.asStr).bind fun collection =>
  (decField v "denom" Json.asStr).bind fun denom =>
  (optField v "filter_sources" (decArr decodeTokensForNftSource)).bind fun filter_sources =>
  (decField v "limit" Json.asNum).bind fun limit =>
  some (QueryMsg.tokens_for_nfts collection denom filter_sources limit)

def decodeQueryMsg : Json → Option QueryMsg
  | Json.obj [(k, v)] =>
    if k = "nfts_for_tokens" then decodeNftsForTokensBody v
    else if k = "tokens_for_nfts" then decodeTokensForNftsBody v
    else none
  | _ => none

def encodeNftForTokensQuote (q : NftForTokensQuote) : Json :=
  Json.obj [("address", Json.str q.address),
            ("amount", Json.str q.amount),
            ("source", encodeNftForTokensSource q.source)]

def decodeNftForTokensQuote (j : Json) : Option NftForTokensQuote :=
  (decField j "address" Json.asStr).bind fun address =>
  (decField j "amount" Json.asStr).bind fun amount =>
  (decField j "source" decodeNftForTokensSource).bind fun source =>
  some ⟨address, amount, source⟩

def encodeTokensForNftQuote (q : TokensForNftQuote) : Json :=
  Json.obj [("address", Json.str q.address),
            ("amount", Json.str q.amount),
            ("source", encodeTokensForNftSource q.source)]

def decodeTokensForNftQuote (j : Json) : Option TokensForNftQuote :=
  (decField j "address" Json.asStr).bind fun address =>
  (decField j "amount" Json.asStr).bind fun amount =>
  (decField j "source" decodeTokensForNftSource).bind fun source =>
  some ⟨address, amount, source⟩

end InfinityRouter

open InfinityPool
open InfinityRouter

/-! ### Generic codec lemmas -/

/-- Element-wise round-trip lifts to lists. -/
theorem decodeList_map {α : Type} {dec : Json → Option α} {enc : α → Json}
    (h : ∀ a, dec (enc a) = some a) :
    ∀ xs : List α, decodeList dec (xs.map enc) = some xs
  | [] => rfl
  | x :: xs => by simp [decodeList, h, decodeList_map h xs]

/-- A required field that decoded successfully was present. -/
theorem decField_isSome {α : Type} {j : Json} {name : String}
    {dec : Json → Option α} {a : α}
    (h : decField j name dec = some a) : (Json.getField j name).isSome = true := by
  unfold decField at h
  cases hg : Json.getField j name with
  | none => rw [hg] at h; simp at h
  | some v => rfl

/-! ### Round-trip lemmas, pool contract -/

theorem asStr_str : ∀ s : String, Json.asStr (Json.str s) = some s := fun _ => rfl

theorem asNum_num : ∀ n : Int, Json.asNum (Json.num n) = some n := fun _ => rfl

theorem asBool_bool : ∀ b : Bool, Json.asBool (Json.bool b) = some b := fun _ => rfl

/-- A nullable value round-trips when the element codec round-trips and the
element encoder never produces `null`. -/
theorem decOpt_enc {α : Type} {dec : Json → Option α} {enc : α → Json}
    (h : ∀ a, dec (enc a) = some a) (hnull : ∀ a, enc a ≠ Json.null) :
    ∀ o : Option α, decOpt dec (encOpt enc o) = some o := by
  intro o
  cases o with
  | none => rfl
  | some a =>
    have hv : decOpt dec (enc a) = (dec (enc a)).map some := by
      cases he : enc a
      · exact absurd he (hnull a)
      all_goals rfl
    simp [encOpt, hv, h]

theorem decOpt_str : ∀ o : Option String,
    decOpt Json.asStr (encOpt Json.str o) = some o :=
  decOpt_enc asStr_str (fun _ h => Json.noConfusion h)

theorem decOpt_num : ∀ o : Option Int,
    decOpt Json.asNum (encOpt Json.num o) = some o :=
  decOpt_enc asNum_num (fun _ h => Json.noConfusion h)

theorem decOpt_bool : ∀ o : Option Bool,
    decOpt Json.asBool (encOpt Json.bool o) = some o :=
  decOpt_enc asBool_bool (fun _ h => Json.noConfusion h)

/-! ### Round-trip lemmas, pool contract -/

theorem rt_Config : ∀ c : Config, decodeConfig (encodeConfig c) = some c := by
  rintro ⟨denom, dev, addr⟩
  simp [encodeConfig, decodeConfig, decField, optField, decOpt_str,
        Json.getField, lookupField, Json.asStr]

theorem rt_ConfigResponse : ∀ r : ConfigResponse,
    decodeConfigResponse (encodeConfigResponse r) = some r := by
  rintro ⟨config⟩
  simp [encodeConfigResponse, decodeConfigResponse, decField,
        Json.getField, lookupField, rt_Config]

theorem rt_InstantiateMsg : ∀ m : InfinityPool.InstantiateMsg,
    InfinityPool.decodeInstantiateMsg (InfinityPool.encodeInstantiateMsg m) = some m := by
  rintro ⟨denom, dev, addr⟩
  simp [InfinityPool.encodeInstantiateMsg, InfinityPool.decodeInstantiateMsg,
        decField, optField, decOpt_str, Json.getField, lookupField, Json.asStr]

theorem rt_NftSwap : ∀ s : NftSwap,
    decodeNftSwap (encodeNftSwap s) = some s := by
  rintro ⟨tid, amt⟩
  simp [encodeNftSwap, decodeNftSwap, decField, Json.getField, lookupField,
        Json.asStr]

theorem rt_BondingCurve : ∀ b : BondingCurve,
    decodeBondingCurve (encodeBondingCurve b) = some b := by
  intro b; cases b <;> rfl

theorem rt_PoolType : ∀ p : PoolType,
    decodePoolType (encodePoolType p) = some p := by
  intro p; cases p <;> rfl

theorem rt_TransactionType : ∀ t : TransactionType,
    decodeTransactionType (encodeTransactionType t) = some t := by
  intro t; cases t <;> rfl

theorem rt_PoolInfo : ∀ p : PoolInfo,
    decodePoolInfo (encodePoolInfo p) = some p := by
  rintro ⟨ar, bc, c, d, f, pt, rn, rt', sp, sw⟩
  simp [encodePoolInfo, decodePoolInfo, decField, optField, decOpt_str,
        Json.getField, lookupField, Json.asStr, Json.asBool,
        rt_BondingCurve, rt_PoolType]

theorem rt_PoolNftSwap : ∀ p : PoolNftSwap,
    decodePoolNftSwap (encodePoolNftSwap p) = some p := by
  rintro ⟨swaps, pid⟩
  simp [encodePoolNftSwap, decodePoolNftSwap, decField, Json.getField,
        lookupField, Json.asNum, decArr, Json.asArr, decodeList_map rt_NftSwap]

theorem rt_PoolQuote : ∀ q : PoolQuote,
    decodePoolQuote (encodePoolQuote q) = some q := by
  rintro ⟨c, id, qp⟩
  simp [encodePoolQuote, decodePoolQuote, decField, Json.getField,
        lookupField, Json.asStr, Json.asNum]

theorem rt_PoolQuoteResponse : ∀ r : PoolQuoteResponse,
    decodePoolQuoteResponse (encodePoolQuoteResponse r) = some r := by
  rintro ⟨qs⟩
  simp [encodePoolQuoteResponse, decodePoolQuoteResponse, decField,
        Json.getField, lookupField, decArr, Json.asArr,
        decodeList_map rt_PoolQuote]

theorem rt_Pool : ∀ p : Pool, decodePool (encodePool p) = some p := by
  rintro ⟨ar, bc, c, d, f, id, ia, tids, ow, pt, rn, rt', sp, sw, tt⟩
  simp [encodePool, decodePool, decField, optField, decOpt_str,
        Json.getField, lookupField, Json.asStr, Json.asBool, Json.asNum,
        decArr, Json.asArr, decodeList_map asStr_str,
        rt_BondingCurve, rt_PoolType]

theorem encodePool_ne_null : ∀ p : Pool, encodePool p ≠ Json.null := by
  intro p h
  simp [encodePool] at h

theorem rt_PoolPair : ∀ p : Int × Option Pool,
    decodePoolPair (encodePoolPair p) = some p := by
  rintro ⟨id, op⟩
  simp [encodePoolPair, decodePoolPair, Json.asNum,
        decOpt_enc rt_Pool encodePool_ne_null]

theorem rt_PoolsByIdResponse : ∀ r : PoolsByIdResponse,
    decodePoolsByIdResponse (encodePoolsByIdResponse r) = some r := by
  rintro ⟨ps⟩
  simp [encodePoolsByIdResponse, decodePoolsByIdResponse, decField,
        Json.getField, lookupField, decArr, Json.asArr,
        decodeList_map rt_PoolPair]

theorem rt_PoolsResponse : ∀ r : PoolsResponse,
    decodePoolsResponse (encodePoolsResponse r) = some r := by
  rintro ⟨ps⟩
  simp [encodePoolsResponse, decodePoolsResponse, decField, Json.getField,
        lookupField, decArr, Json.asArr, decodeList_map rt_Pool]

theorem rt_U128U64Tuple : ∀ t : Uint128 × Int,
    decodeU128U64Tuple (encodeU128U64Tuple t) = some t := by
  rintro ⟨u, n⟩
  simp [encodeU128U64Tuple, decodeU128U64Tuple, Json.asStr, Json.asNum]

theorem encodeU128U64Tuple_ne_null : ∀ t : Uint128 × Int,
    encodeU128U64Tuple t ≠ Json.null := by
  intro t h
  simp [encodeU128U64Tuple] at h

theorem rt_QueryOptionsForTupleOfUint128AndUint64 :
    ∀ q : QueryOptionsForTupleOfUint128AndUint64,
    decodeQueryOptionsForTupleOfUint128AndUint64
      (encodeQueryOptionsForTupleOfUint128AndUint64 q) = some q := by
  rintro ⟨de, li, sa⟩
  simp [encodeQueryOptionsForTupleOfUint128AndUint64,
        decodeQueryOptionsForTupleOfUint128AndUint64, optField,
        Json.getField, lookupField, decOpt_bool, decOpt_num,
        decOpt_enc rt_U128U64Tuple encodeU128U64Tuple_ne_null]

theorem rt_QueryOptionsForUint64 : ∀ q : QueryOptionsForUint64,
    decodeQueryOptionsForUint64 (encodeQueryOptionsForUint64 q) = some q := by
  rintro ⟨de, li, sa⟩
  simp [encodeQueryOptionsForUint64, decodeQueryOptionsForUint64, optField,
        Json.getField, lookupField, decOpt_bool, decOpt_num]

theorem rt_SwapParams : ∀ p : SwapParams,
    decodeSwapParams (encodeSwapParams p) = some p := by
  rintro ⟨dl, rb⟩
  simp [encodeSwapParams, decodeSwapParams, decField, Json.getField,
        lookupField, Json.asStr, Json.asBool]

theorem rt_TokenPayment : ∀ p : TokenPayment,
    decodeTokenPayment (encodeTokenPayment p) = some p := by
  rintro ⟨a, amt⟩
  simp [encodeTokenPayment, decodeTokenPayment, decField, Json.getField,
        lookupField, Json.asStr]

theorem rt_NftPayment : ∀ p : NftPayment,
    decodeNftPayment (encodeNftPayment p) = some p := by
  rintro ⟨a, tid⟩
  simp [encodeNftPayment, decodeNftPayment, decField, Json.getField,
        lookupField, Json.asStr]

theorem encodeTokenPayment_ne_null : ∀ p : TokenPayment,
    encodeTokenPayment p ≠ Json.null := by
  intro p h
  simp [encodeTokenPayment] at h

theorem encodeNftPayment_ne_null : ∀ p : NftPayment,
    encodeNftPayment p ≠ Json.null := by
  intro p h
  simp [encodeNftPayment] at h

theorem rt_Swap : ∀ s : Swap, decodeSwap (encodeSwap s) = some s := by
  rintro ⟨fp, nf, np, pid, rp, slp, sp, tt⟩
  simp [encodeSwap, decodeSwap, decField, optField, Json.getField,
        lookupField, Json.asStr, Json.asNum, rt_TransactionType,
        decOpt_enc rt_TokenPayment encodeTokenPayment_ne_null,
        decOpt_enc rt_NftPayment encodeNftPayment_ne_null]

theorem rt_SwapResponse : ∀ r : SwapResponse,
    decodeSwapResponse (encodeSwapResponse r) = some r := by
  rintro ⟨ss⟩
  simp [encodeSwapResponse, decodeSwapResponse, decField, Json.getField,
        lookupField, decArr, Json.asArr, decodeList_map rt_Swap]

/-! ### Round-trip lemmas, router contract -/

theorem rt_RouterInstantiateMsg : ∀ m : InfinityRouter.InstantiateMsg,
    InfinityRouter.decodeInstantiateMsg (InfinityRouter.encodeInstantiateMsg m) = some m := by
  rintro ⟨g⟩
  simp [InfinityRouter.encodeInstantiateMsg, InfinityRouter.decodeInstantiateMsg,
        decField, Json.getField, lookupField, Json.asStr]

theorem rt_NftForTokensSource : ∀ s : NftForTokensSource,
    decodeNftForTokensSource (encodeNftForTokensSource s) = some s := by
  intro s; cases s; rfl

theorem rt_TokensForNftSource : ∀ s : TokensForNftSource,
    decodeTokensForNftSource (encodeTokensForNftSource s) = some s := by
  intro s; cases s; rfl

theorem rt_SellOrder : ∀ o : SellOrder,
    decodeSellOrder (encodeSellOrder o) = some o := by
  rintro ⟨tid, mo⟩
  simp [encodeSellOrder, decodeSellOrder, decField, Json.getField,
        lookupField, Json.asStr]

theorem rt_SwapParamsForString : ∀ p : SwapParamsForString,
    decodeSwapParamsForString (encodeSwapParamsForString p) = some p := by
  rintro ⟨ar, rb⟩
  simp [encodeSwapParamsForString, decodeSwapParamsForString, optField,
        Json.getField, lookupField, decOpt_str, decOpt_bool]

theorem encodeSwapParamsForString_ne_null : ∀ p : SwapParamsForString,
    encodeSwapParamsForString p ≠ Json.null := by
  intro p h
  simp [encodeSwapParamsForString] at h

theorem rt_NftForTokensSourceList : ∀ xs : List NftForTokensSource,
    decArr decodeNftForTokensSource
      (Json.arr (xs.map encodeNftForTokensSource)) = some xs := by
  intro xs
  simp [decArr, Json.asArr, decodeList_map rt_NftForTokensSource]

theorem rt_TokensForNftSourceList : ∀ xs : List TokensForNftSource,
    decArr decodeTokensForNftSource
      (Json.arr (xs.map encodeTokensForNftSource)) = some xs := by
  intro xs
  simp [decArr, Json.asArr, decodeList_map rt_TokensForNftSource]

theorem decOpt_nftSourceList : ∀ o : Option (List NftForTokensSource),
    decOpt (decArr decodeNftForTokensSource)
      (encOpt (fun xs => Json.arr (xs.map encodeNftForTokensSource)) o) = some o :=
  decOpt_enc rt_NftForTokensSourceList (fun _ h => Json.noConfusion h)

theorem decOpt_tokenSourceList : ∀ o : Option (List TokensForNftSource),
    decOpt (decArr decodeTokensForNftSource)
      (encOpt (fun xs => Json.arr (xs.map encodeTokensForNftSource)) o) = some o :=
  decOpt_enc rt_TokensForNftSourceList (fun _ h => Json.noConfusion h)

theorem rt_ExecuteMsg : ∀ m : ExecuteMsg,
    decodeExecuteMsg (encodeExecuteMsg m) = some m := by
  intro m
  cases m <;>
    simp [encodeExecuteMsg, decodeExecuteMsg, decodeSwapNftsForTokensBody,
          decodeSwapTokensForNftsBody, decField, optField, Json.getField,
          lookupField, Json.asStr, decArr, Json.asArr,
          decodeList_map rt_SellOrder, decodeList_map asStr_str,
          decOpt_nftSourceList, decOpt_tokenSourceList,
          decOpt_enc rt_SwapParamsForString encodeSwapParamsForString_ne_null]

theorem rt_QueryMsg : ∀ m : QueryMsg,
    decodeQueryMsg (encodeQueryMsg m) = some m := by
  intro m
  cases m <;>
    simp [encodeQueryMsg, decodeQueryMsg, decodeNftsForTokensBody,
          decodeTokensForNftsBody, decField, optField, Json.getField,
          lookupField, Json.asStr, Json.asNum,
          decOpt_nftSourceList, decOpt_tokenSourceList]

theorem rt_NftForTokensQuote : ∀ q : NftForTokensQuote,
    decodeNftForTokensQuote (encodeNftForTokensQuote q) = some q := by
  rintro ⟨a, amt, src⟩
  simp [encodeNftForTokensQuote, decodeNftForTokensQuote, decField,
        Json.getField, lookupField, Json.asStr, rt_NftForTokensSource]

theorem rt_TokensForNftQuote : ∀ q : TokensForNftQuote,
    decodeTokensForNftQuote (encodeTokensForNftQuote q) = some q := by
  rintro ⟨a, amt, src⟩
  simp [encodeTokensForNftQuote, decodeTokensForNftQuote, decField,
        Json.getField, lookupField, Json.asStr, rt_TokensForNftSource]

/-! ### A successful decode implies every required field was present -/

theorem req_Config : ∀ (j : Json) (c : Config), decodeConfig j = some c →
    (j.getField "denom").isSome = true ∧
    (j.getField "marketplace_addr").isSome = true := by
  intro j c h
  simp only [decodeConfig, Option.bind_eq_some'] at h
  obtain ⟨d, h1, dev, h2, m, h3, -⟩ := h
  exact ⟨decField_isSome h1, decField_isSome h3⟩

theorem req_ConfigResponse : ∀ (j : Json) (r : ConfigResponse),
    decodeConfigResponse j = some r →
    (j.getField "config").isSome = true := by
  intro j r h
  simp only [decodeConfigResponse, Option.bind_eq_some'] at h
  obtain ⟨c, h1, -⟩ := h
  exact decField_isSome h1

theorem req_InstantiateMsg : ∀ (j : Json) (m : InfinityPool.InstantiateMsg),
    InfinityPool.decodeInstantiateMsg j = some m →
    (j.getField "denom").isSome = true ∧
    (j.getField "marketplace_addr").isSome = true := by
  intro j m h
  simp only [InfinityPool.decodeInstantiateMsg, Option.bind_eq_some'] at h
  obtain ⟨d, h1, dev, h2, ma, h3, -⟩ := h
  exact ⟨decField_isSome h1, decField_isSome h3⟩

theorem req_NftSwap : ∀ (j : Json) (s : NftSwap), decodeNftSwap j = some s →
    (j.getField "nft_token_id").isSome = true ∧
    (j.getField "token_amount").isSome = true := by
  intro j s h
  simp only [decodeNftSwap, Option.bind_eq_some'] at h
  obtain ⟨t, h1, a, h2, -⟩ := h
  exact ⟨decField_isSome h1, decField_isSome h2⟩

theorem req_PoolInfo : ∀ (j : Json) (p : PoolInfo), decodePoolInfo j = some p →
    (j.getField "bonding_curve").isSome = true ∧
    (j.getField "collection").isSome = true ∧
    (j.getField "delta").isSome = true ∧
    (j.getField "finders_fee_percent").isSome = true ∧
    (j.getField "pool_type").isSome = true ∧
    (j.getField "reinvest_nfts").isSome = true ∧
    (j.getField "reinvest_tokens").isSome = true ∧
    (j.getField "spot_price").isSome = true ∧
    (j.getField "swap_fee_percent").isSome = true := by
  intro j p h
  simp only [decodePoolInfo, Option.bind_eq_some'] at h
  obtain ⟨ar, h0, bc, h1, c, h2, d, h3, f, h4, pt, h5, rn, h6, rt', h7,
          sp, h8, sw, h9, -⟩ := h
  exact ⟨decField_isSome h1, decField_isSome h2, decField_isSome h3,
         decField_isSome h4, decField_isSome h5, decField_isSome h6,
         decField_isSome h7, decField_isSome h8, decField_isSome h9⟩

theorem req_PoolNftSwap : ∀ (j : Json) (p : PoolNftSwap),
    decodePoolNftSwap j = some p →
    (j.getField "nft_swaps").isSome = true ∧
    (j.getField "pool_id").isSome = true := by
  intro j p h
  simp only [decodePoolNftSwap, Option.bind_eq_some'] at h
  obtain ⟨s, h1, i, h2, -⟩ := h
  exact ⟨decField_isSome h1, decField_isSome h2⟩

theorem req_PoolQuote : ∀ (j : Json) (q : PoolQuote), decodePoolQuote j = some q →
    (j.getField "collection").isSome = true ∧
    (j.getField "id").isSome = true ∧
    (j.getField "quote_price").isSome = true := by
  intro j q h
  simp only [decodePoolQuote, Option.bind_eq_some'] at h
  obtain ⟨c, h1, i, h2, qp, h3, -⟩ := h
  exact ⟨decField_isSome h1, decField_isSome h2, decField_isSome h3⟩

theorem req_PoolQuoteResponse : ∀ (j : Json) (r : PoolQuoteResponse),
    decodePoolQuoteResponse j = some r →
    (j.getField "pool_quotes").isSome = true := by
  intro j r h
  simp only [decodePoolQuoteResponse, Option.bind_eq_some'] at h
  obtain ⟨q, h1, -⟩ := h
  exact decField_isSome h1

theorem req_PoolsByIdResponse : ∀ (j : Json) (r : PoolsByIdResponse),
    decodePoolsByIdResponse j = some r →
    (j.getField "pools").isSome = true := by
  intro j r h
  simp only [decodePoolsByIdResponse, Option.bind_eq_some'] at h
  obtain ⟨p, h1, -⟩ := h
  exact decField_isSome h1

theorem req_Pool : ∀ (j : Json) (p : Pool), decodePool j = some p →
    (j.getField "bonding_curve").isSome = true ∧
    (j.getField "collection").isSome = true ∧
    (j.getField "delta").isSome = true ∧
    (j.getField "finders_fee_percent").isSome = true ∧
    (j.getField "id").isSome = true ∧
    (j.getField "is_active").isSome = true ∧
    (j.getField "nft_token_ids").isSome = true ∧
    (j.getField "owner").isSome = true ∧
    (j.getField "pool_type").isSome = true ∧
    (j.getField "reinvest_nfts").isSome = true ∧
    (j.getField "reinvest_tokens").isSome = true ∧
    (j.getField "spot_price").isSome = true ∧
    (j.getField "swap_fee_percent").isSome = true ∧
    (j.getField "total_tokens").isSome = true := by
  intro j p h
  unfold decodePool at h
  obtain ⟨ar, h0, h⟩ := Option.bind_eq_some'.mp h
  obtain ⟨bc, h1, h⟩ := Option.bind_eq_some'.mp h
  obtain ⟨c, h2, h⟩ := Option.bind_eq_some'.mp h
  obtain ⟨d, h3, h⟩ := Option.bind_eq_some'.mp h
  obtain ⟨f, h4, h⟩ := Option.bind_eq_some'.mp h
  obtain ⟨i, h5, h⟩ := Option.bind_eq_some'.mp h
  obtain ⟨ia, h6, h⟩ := Option.bind_eq_some'.mp h
  obtain ⟨ti, h7, h⟩ := Option.bind_eq_some'.mp h
  obtain ⟨ow, h8, h⟩ := Option.bind_eq_some'.mp h
  obtain ⟨pt, h9, h⟩ := Option.bind_eq_some'.mp h
  obtain ⟨rn, h10, h⟩ := Option.bind_eq_some'.mp h
  obtain ⟨rt', h11, h⟩ := Option.bind_eq_some'.mp h
  obtain ⟨sp, h12, h⟩ := Option.bind_eq_some'.mp h
  obtain ⟨sw, h13, h⟩ := Option.bind_eq_some'.mp h
  obtain ⟨tt, h14, -⟩ := Option.bind_eq_some'.mp h
  exact ⟨decField_isSome h1, decField_isSome h2, decField_isSome h3,
         decField_isSome h4, decField_isSome h5, decField_isSome h6,
         decField_isSome h7, decField_isSome h8, decField_isSome h9,
         decField_isSome h10, decField_isSome h11, decField_isSome h12,
         decField_isSome h13, decField_isSome h14⟩

theorem req_PoolsResponse : ∀ (j : Json) (r : PoolsResponse),
    decodePoolsResponse j = some r →
    (j.getField "pools").isSome = true := by
  intro j r h
  simp only [decodePoolsResponse, Option.bind_eq_some'] at h
  obtain ⟨p, h1, -⟩ := h
  exact decField_isSome h1

theorem req_SwapParams : ∀ (j : Json) (p : SwapParams),
    decodeSwapParams j = some p →
    (j.getField "deadline").isSome = true ∧
    (j.getField "robust").isSome = true := by
  intro j p h
  simp only [decodeSwapParams, Option.bind_eq_some'] at h
  obtain ⟨d, h1, r, h2, -⟩ := h
  exact ⟨decField_isSome h1, decField_isSome h2⟩

theorem req_TokenPayment : ∀ (j : Json) (p : TokenPayment),
    decodeTokenPayment j = some p →
    (j.getField "address").isSome = true ∧
    (j.getField "amount").isSome = true := by
  intro j p h
  simp only [decodeTokenPayment, Option.bind_eq_some'] at h
  obtain ⟨a, h1, m, h2, -⟩ := h
  exact ⟨decField_isSome h1, decField_isSome h2⟩

theorem req_NftPayment : ∀ (j : Json) (p : NftPayment),
    decodeNftPayment j = some p →
    (j.getField "address").isSome = true ∧
    (j.getField "nft_token_id").isSome = true := by
  intro j p h
  simp only [decodeNftPayment, Option.bind_eq_some'] at h
  obtain ⟨a, h1, t, h2, -⟩ := h
  exact ⟨decField_isSome h1, decField_isSome h2⟩

theorem req_Swap : ∀ (j : Json) (s : Swap), decodeSwap j = some s →
    (j.getField "network_fee").isSome = true ∧
    (j.getField "pool_id").isSome = true ∧
    (j.getField "spot_price").isSome = true ∧
    (j.getField "transaction_type").isSome = true := by
  intro j s h
  simp only [decodeSwap, Option.bind_eq_some'] at h
  obtain ⟨fp, h0, nf, h1, np, h2, pid, h3, rp, h4, slp, h5, sp, h6, tt, h7, -⟩ := h
  exact ⟨decField_isSome h1, decField_isSome h3, decField_isSome h6,
         decField_isSome h7⟩

theorem req_SwapResponse : ∀ (j : Json) (r : SwapResponse),
    decodeSwapResponse j = some r →
    (j.getField "swaps").isSome = true := by
  intro j r h
  simp only [decodeSwapResponse, Option.bind_eq_some'] at h
  obtain ⟨s, h1, -⟩ := h
  exact decField_isSome h1

theorem req_RouterInstantiateMsg : ∀ (j : Json) (m : InfinityRouter.InstantiateMsg),
    InfinityRouter.decodeInstantiateMsg j = some m →
    (j.getField "infinity_global").isSome = true := by
  intro j m h
  simp only [InfinityRouter.decodeInstantiateMsg, Option.bind_eq_some'] at h
  obtain ⟨g, h1, -⟩ := h
  exact decField_isSome h1

theorem req_SellOrder : ∀ (j : Json) (o : SellOrder), decodeSellOrder j = some o →
    (j.getField "input_token_id").isSome = true ∧
    (j.getField "min_output").isSome = true := by
  intro j o h
  simp only [decodeSellOrder, Option.bind_eq_some'] at h
  obtain ⟨t, h1, m, h2, -⟩ := h
  exact ⟨decField_isSome h1, decField_isSome h2⟩

theorem req_NftForTokensQuote : ∀ (j : Json) (q : NftForTokensQuote),
    decodeNftForTokensQuote j = some q →
    (j.getField "address").isSome = true ∧
    (j.getField "amount").isSome = true ∧
    (j.getField "source").isSome = true := by
  intro j q h
  simp only [decodeNftForTokensQuote, Option.bind_eq_some'] at h
  obtain ⟨a, h1, m, h2, s, h3, -⟩ := h
  exact ⟨decField_isSome h1, decField_isSome h2, decField_isSome h3⟩

theorem req_TokensForNftQuote : ∀ (j : Json) (q : TokensForNftQuote),
    decodeTokensForNftQuote j = some q →
    (j.getField "address").isSome = true ∧
    (j.getField "amount").isSome = true ∧
    (j.getField "source").isSome = true := by
  intro j q h
  simp only [decodeTokensForNftQuote, Option.bind_eq_some'] at h
  obtain ⟨a, h1, m, h2, s, h3, -⟩ := h
  exact ⟨decField_isSome h1, decField_isSome h2, decField_isSome h3⟩

theorem req_SwapNftsForTokensBody : ∀ (v : Json) (m : ExecuteMsg),
    decodeSwapNftsForTokensBody v = some m →
    (v.getField "collection").isSome = true ∧
    (v.getField "denom").isSome = true ∧
    (v.getField "sell_orders").isSome = true := by
  intro v m h
  simp only [decodeSwapNftsForTokensBody, Option.bind_eq_some'] at h
  obtain ⟨c, h1, d, h2, fs, h3, so, h4, sp, h5, -⟩ := h
  exact ⟨decField_isSome h1, decField_isSome h2, decField_isSome h4⟩

theorem req_SwapTokensForNftsBody : ∀ (v : Json) (m : ExecuteMsg),
    decodeSwapTokensForNftsBody v = some m →
    (v.getField "collection").isSome = true ∧
    (v.getField "denom").isSome = true ∧
    (v.getField "max_inputs").isSome = true := by
  intro v m h
  simp only [decodeSwapTokensForNftsBody, Option.bind_eq_some'] at h
  obtain ⟨c, h1, d, h2, fs, h3, mi, h4, sp, h5, -⟩ := h
  exact ⟨decField_isSome h1, decField_isSome h2, decField_isSome h4⟩

theorem req_NftsForTokensBody : ∀ (v : Json) (m : QueryMsg),
    decodeNftsForTokensBody v = some m →
    (v.getField "collection").isSome = true ∧
    (v.getField "denom").isSome = true ∧
    (v.getField "limit").isSome = true := by
  intro v m h
  simp only [decodeNftsForTokensBody, Option.bind_eq_some'] at h
  obtain ⟨c, h1, d, h2, fs, h3, li, h4, -⟩ := h
  exact ⟨decField_isSome h1, decField_isSome h2, decField_isSome h4⟩

theorem req_TokensForNftsBody : ∀ (v : Json) (m : QueryMsg),
    decodeTokensForNftsBody v = some m →
    (v.getField "collection").isSome = true ∧
    (v.getField "denom").isSome = true ∧
    (v.getField "limit").isSome = true := by
  intro v m h
  simp only [decodeTokensForNftsBody, Option.bind_eq_some'] at h
  obtain ⟨c, h1, d, h2, fs, h3, li, h4, -⟩ := h
  exact ⟨decField_isSome h1, decField_isSome h2, decField_isSome h4⟩

/-! ### Closed string unions -/

theorem u_PoolType : ∀ j : Json, (decodePoolType j).isSome = true ↔
    (j = Json.str "token" ∨ j = Json.str "nft" ∨ j = Json.str "trade") := by
  intro j
  unfold decodePoolType
  cases j <;> simp
  case str s => split_ifs <;> simp [*]

theorem u_BondingCurve : ∀ j : Json, (decodeBondingCurve j).isSome = true ↔
    (j = Json.str "linear" ∨ j = Json.str "exponential" ∨
     j = Json.str "constant_product") := by
  intro j
  unfold decodeBondingCurve
  cases j <;> simp
  case str s => split_ifs <;> simp [*]

theorem u_TransactionType : ∀ j : Json, (decodeTransactionType j).isSome = true ↔
    (j = Json.str "sell" ∨ j = Json.str "buy") := by
  intro j
  unfold decodeTransactionType
  cases j <;> simp
  case str s => split_ifs <;> simp [*]

theorem u_NftForTokensSource : ∀ j : Json,
    (decodeNftForTokensSource j).isSome = true ↔ j = Json.str "infinity" := by
  intro j
  unfold decodeNftForTokensSource
  cases j <;> simp

theorem u_TokensForNftSource : ∀ j : Json,
    (decodeTokensForNftSource j).isSome = true ↔ j = Json.str "infinity" := by
  intro j
  unfold decodeTokensForNftSource
  cases j <;> simp

theorem mem_PoolType : ∀ p : PoolType,
    p = PoolType.token ∨ p = PoolType.nft ∨ p = PoolType.trade := by
  intro p; cases p <;> simp

theorem mem_BondingCurve : ∀ b : BondingCurve,
    b = BondingCurve.linear ∨ b = BondingCurve.exponential ∨
    b = BondingCurve.constant_product := by
  intro b; cases b <;> simp

theorem mem_TransactionType : ∀ t : TransactionType,
    t = TransactionType.sell ∨ t = TransactionType.buy := by
  intro t; cases t <;> simp

theorem mem_NftForTokensSource : ∀ s : NftForTokensSource,
    s = NftForTokensSource.infinity := by
  intro s; cases s; rfl

theorem mem_TokensForNftSource : ∀ s : TokensForNftSource,
    s = TokensForNftSource.infinity := by
  intro s; cases s; rfl

/-! ### Tagged unions carry exactly one operation key -/

theorem keys_ExecuteMsg : ∀ m : ExecuteMsg,
    Json.keys (encodeExecuteMsg m) = ["swap_nfts_for_tokens"] ∨
    Json.keys (encodeExecuteMsg m) = ["swap_tokens_for_nfts"] := by
  intro m
  cases m
  · exact Or.inl rfl
  · exact Or.inr rfl

theorem keys_QueryMsg : ∀ m : QueryMsg,
    Json.keys (encodeQueryMsg m) = ["nfts_for_tokens"] ∨
    Json.keys (encodeQueryMsg m) = ["tokens_for_nfts"] := by
  intro m
  cases m
  · exact Or.inl rfl
  · exact Or.inr rfl

theorem dispatch_ExecuteMsg : ∀ (j : Json) (m : ExecuteMsg),
    decodeExecuteMsg j = some m →
    ∃ k v, j = Json.obj [(k, v)] ∧
      (k = "swap_nfts_for_tokens" ∨ k = "swap_tokens_for_nfts") := by
  intro j m h
  cases j with
  | obj fields =>
    cases fields with
    | nil => exact Option.noConfusion h
    | cons kv rest =>
      obtain ⟨k, v⟩ := kv
      cases rest with
      | nil =>
        by_cases h1 : k = "swap_nfts_for_tokens"
        · exact ⟨k, v, rfl, Or.inl h1⟩
        · by_cases h2 : k = "swap_tokens_for_nfts"
          · exact ⟨k, v, rfl, Or.inr h2⟩
          · simp [decodeExecuteMsg, h1, h2] at h
      | cons kv2 rest2 => exact Option.noConfusion h
  | null => exact Option.noConfusion h
  | bool b => exact Option.noConfusion h
  | num n => exact Option.noConfusion h
  | str s => exact Option.noConfusion h
  | arr xs => exact Option.noConfusion h

theorem dispatch_QueryMsg : ∀ (j : Json) (m : QueryMsg),
    decodeQueryMsg j = some m →
    ∃ k v, j = Json.obj [(k, v)] ∧
      (k = "nfts_for_tokens" ∨ k = "tokens_for_nfts") := by
  intro j m h
  cases j with
  | obj fields =>
    cases fields with
    | nil => exact Option.noConfusion h
    | cons kv rest =>
      obtain ⟨k, v⟩ := kv
      cases rest with
      | nil =>
        by_cases h1 : k = "nfts_for_tokens"
        · exact ⟨k, v, rfl, Or.inl h1⟩
        · by_cases h2 : k = "tokens_for_nfts"
          · exact ⟨k, v, rfl, Or.inr h2⟩
          · simp [decodeQueryMsg, h1, h2] at h
      | cons kv2 rest2 => exact Option.noConfusion h
  | null => exact Option.noConfusion h
  | bool b => exact Option.noConfusion h
  | num n => exact Option.noConfusion h
  | str s => exact Option.noConfusion h
  | arr xs => exact Option.noConfusion h

/-! ### Example values -/

def cfgEx : Config :=
  { denom := "ustars", developer := none,
    marketplace_addr := "stars1marketplace" }

def pqEx : PoolQuote :=
  { collection := "stars1collection", id := 3, quote_price := "500" }

/-- A `Swap` with all four payment breakdowns present at once. -/
def swapEx4 : Swap :=
  { finder_payment := some { address := "stars1finder", amount := "5" },
    network_fee := "12",
    nft_payment := some { address := "stars1buyer", nft_token_id := "42" },
    pool_id := 7,
    royalty_payment := some { address := "stars1creator", amount := "10" },
    seller_payment := some { address := "stars1seller", amount := "980" },
    spot_price := "1000",
    transaction_type := TransactionType.buy }

def execEx : ExecuteMsg :=
  ExecuteMsg.swap_nfts_for_tokens "stars1collection" "ustars" none
    [{ input_token_id := "17", min_output := "100" }] none

/-! ### Bundled schema-fidelity properties -/

/-- Every message/response shape declared in the two type files round-trips
through its JSON codec. -/
def SchemaRoundTrips : Prop :=
  (∀ c : Config, decodeConfig (encodeConfig c) = some c) ∧
  (∀ r : ConfigResponse, decodeConfigResponse (encodeConfigResponse r) = some r) ∧
  (∀ m : InfinityPool.InstantiateMsg,
    InfinityPool.decodeInstantiateMsg (InfinityPool.encodeInstantiateMsg m) = some m) ∧
  (∀ s : NftSwap, decodeNftSwap (encodeNftSwap s) = some s) ∧
  (∀ b : BondingCurve, decodeBondingCurve (encodeBondingCurve b) = some b) ∧
  (∀ p : PoolType, decodePoolType (encodePoolType p) = some p) ∧
  (∀ t : TransactionType, decodeTransactionType (encodeTransactionType t) = some t) ∧
  (∀ p : PoolInfo, decodePoolInfo (encodePoolInfo p) = some p) ∧
  (∀ p : PoolNftSwap, decodePoolNftSwap (encodePoolNftSwap p) = some p) ∧
  (∀ q : PoolQuote, decodePoolQuote (encodePoolQuote q) = some q) ∧
  (∀ r : PoolQuoteResponse, decodePoolQuoteResponse (encodePoolQuoteResponse r) = some r) ∧
  (∀ p : Pool, decodePool (encodePool p) = some p) ∧
  (∀ p : Int × Option Pool, decodePoolPair (encodePoolPair p) = some p) ∧
  (∀ r : PoolsByIdResponse, decodePoolsByIdResponse (encodePoolsByIdResponse r) = some r) ∧
  (∀ r : PoolsResponse, decodePoolsResponse (encodePoolsResponse r) = some r) ∧
  (∀ t : Uint128 × Int, decodeU128U64Tuple (encodeU128U64Tuple t) = some t) ∧
  (∀ q : QueryOptionsForTupleOfUint128AndUint64,
    decodeQueryOptionsForTupleOfUint128AndUint64
      (encodeQueryOptionsForTupleOfUint128AndUint64 q) = some q) ∧
  (∀ q : QueryOptionsForUint64,
    decodeQueryOptionsForUint64 (encodeQueryOptionsForUint64 q) = some q) ∧
  (∀ p : SwapParams, decodeSwapParams (encodeSwapParams p) = some p) ∧
  (∀ p : TokenPayment, decodeTokenPayment (encodeTokenPayment p) = some p) ∧
  (∀ p : NftPayment, decodeNftPayment (encodeNftPayment p) = some p) ∧
  (∀ s : Swap, decodeSwap (encodeSwap s) = some s) ∧
  (∀ r : SwapResponse, decodeSwapResponse (encodeSwapResponse r) = some r) ∧
  (∀ m : InfinityRouter.InstantiateMsg,
    InfinityRouter.decodeInstantiateMsg (InfinityRouter.encodeInstantiateMsg m) = some m) ∧
  (∀ s : NftForTokensSource, decodeNftForTokensSource (encodeNftForTokensSource s) = some s) ∧
  (∀ s : TokensForNftSource, decodeTokensForNftSource (encodeTokensForNftSource s) = some s) ∧
  (∀ o : SellOrder, decodeSellOrder (encodeSellOrder o) = some o) ∧
  (∀ p : SwapParamsForString, decodeSwapParamsForString (encodeSwapParamsForString p) = some p) ∧
  (∀ m : ExecuteMsg, decodeExecuteMsg (encodeExecuteMsg m) = some m) ∧
  (∀ m : QueryMsg, decodeQueryMsg (encodeQueryMsg m) = some m) ∧
  (∀ q : NftForTokensQuote, decodeNftForTokensQuote (encodeNftForTokensQuote q) = some q) ∧
  (∀ q : TokensForNftQuote, decodeTokensForNftQuote (encodeTokensForNftQuote q) = some q)

/-- Whenever a decode succeeds, every required field of the shape was
present in the input object: contrapositively, an input missing a required
field is rejected. -/
def RequiredFieldsEnforced : Prop :=
  (∀ (j : Json) (c : Config), decodeConfig j = some c →
    (j.getField "denom").isSome = true ∧
    (j.getField "marketplace_addr").isSome = true) ∧
  (∀ (j : Json) (r : ConfigResponse), decodeConfigResponse j = some r →
    (j.getField "config").isSome = true) ∧
  (∀ (j : Json) (m : InfinityPool.InstantiateMsg),
    InfinityPool.decodeInstantiateMsg j = some m →
    (j.getField "denom").isSome = true ∧
    (j.getField "marketplace_addr").isSome = true) ∧
  (∀ (j : Json) (s : NftSwap), decodeNftSwap j = some s →
    (j.getField "nft_token_id").isSome = true ∧
    (j.getField "token_amount").isSome = true) ∧
  (∀ (j : Json) (p : PoolInfo), decodePoolInfo j = some p →
    (j.getField "bonding_curve").isSome = true ∧
    (j.getField "collection").isSome = true ∧
    (j.getField "delta").isSome = true ∧
    (j.getField "finders_fee_percent").isSome = true ∧
    (j.getField "pool_type").isSome = true ∧
    (j.getField "reinvest_nfts").isSome = true ∧
    (j.getField "reinvest_tokens").isSome = true ∧
    (j.getField "spot_price").isSome = true ∧
    (j.getField "swap_fee_percent").isSome = true) ∧
  (∀ (j : Json) (p : PoolNftSwap), decodePoolNftSwap j = some p →
    (j.getField "nft_swaps").isSome = true ∧
    (j.getField "pool_id").isSome = true) ∧
  (∀ (j : Json) (q : PoolQuote), decodePoolQuote j = some q →
    (j.getField "collection").isSome = true ∧
    (j.getField "id").isSome = true ∧
    (j.getField "quote_price").isSome = true) ∧
  (∀ (j : Json) (r : PoolQuoteResponse), decodePoolQuoteResponse j = some r →
    (j.getField "pool_quotes").isSome = true) ∧
  (∀ (j : Json) (r : PoolsByIdResponse), decodePoolsByIdResponse j = some r →
    (j.getField "pools").isSome = true) ∧
  (∀ (j : Json) (p : Pool), decodePool j = some p →
    (j.getField "bonding_curve").isSome = true ∧
    (j.getField "collection").isSome = true ∧
    (j.getField "delta").isSome = true ∧
    (j.getField "finders_fee_percent").isSome = true ∧
    (j.getField "id").isSome = true ∧
    (j.getField "is_active").isSome = true ∧
    (j.getField "nft_token_ids").isSome = true ∧
    (j.getField "owner").isSome = true ∧
    (j.getField "pool_type").isSome = true ∧
    (j.getField "reinvest_nfts").isSome = true ∧
    (j.getField "reinvest_tokens").isSome = true ∧
    (j.getField "spot_price").isSome = true ∧
    (j.getField "swap_fee_percent").isSome = true ∧
    (j.getField "total_tokens").isSome = true) ∧
  (∀ (j : Json) (r : PoolsResponse), decodePoolsResponse j = some r →
    (j.getField "pools").isSome = true) ∧
  (∀ (j : Json) (p : SwapParams), decodeSwapParams j = some p →
    (j.getField "deadline").isSome = true ∧
    (j.getField "robust").isSome = true) ∧
  (∀ (j : Json) (p : TokenPayment), decodeTokenPayment j = some p →
    (j.getField "address").isSome = true ∧
    (j.getField "amount").isSome = true) ∧
  (∀ (j : Json) (p : NftPayment), decodeNftPayment j = some p →
    (j.getField "address").isSome = true ∧
    (j.getField "nft_token_id").isSome = true) ∧
  (∀ (j : Json) (s : Swap), decodeSwap j = some s →
    (j.getField "network_fee").isSome = true ∧
    (j.getField "pool_id").isSome = true ∧
    (j.getField "spot_price").isSome = true ∧
    (j.getField "transaction_type").isSome = true) ∧
  (∀ (j : Json) (r : SwapResponse), decodeSwapResponse j = some r →
    (j.getField "swaps").isSome = true) ∧
  (∀ (j : Json) (m : InfinityRouter.InstantiateMsg),
    InfinityRouter.decodeInstantiateMsg j = some m →
    (j.getField "infinity_global").isSome = true) ∧
  (∀ (j : Json) (o : SellOrder), decodeSellOrder j = some o →
    (j.getField "input_token_id").isSome = true ∧
    (j.getField "min_output").isSome = true) ∧
  (∀ (j : Json) (q : NftForTokensQuote), decodeNftForTokensQuote j = some q →
    (j.getField "address").isSome = true ∧
    (j.getField "amount").isSome = true ∧
    (j.getField "source").isSome = true) ∧
  (∀ (j : Json) (q : TokensForNftQuote), decodeTokensForNftQuote j = some q →
    (j.getField "address").isSome = true ∧
    (j.getField "amount").isSome = true ∧
    (j.getField "source").isSome = true) ∧
  (∀ (v : Json) (m : ExecuteMsg), decodeSwapNftsForTokensBody v = some m →
    (v.getField "collection").isSome = true ∧
    (v.getField "denom").isSome = true ∧
    (v.getField "sell_orders").isSome = true) ∧
  (∀ (v : Json) (m : ExecuteMsg), decodeSwapTokensForNftsBody v = some m →
    (v.getField "collection").isSome = true ∧
    (v.getField "denom").isSome = true ∧
    (v.getField "max_inputs").isSome = true) ∧
  (∀ (v : Json) (m : QueryMsg), decodeNftsForTokensBody v = some m →
    (v.getField "collection").isSome = true ∧
    (v.getField "denom").isSome = true ∧
    (v.getField "limit").isSome = true) ∧
  (∀ (v : Json) (m : QueryMsg), decodeTokensForNftsBody v = some m →
    (v.getField "collection").isSome = true ∧
    (v.getField "denom").isSome = true ∧
    (v.getField "limit").isSome = true)

/-- The string-union decoders accept exactly the declared literals, and a
tagged-union message decodes only from a single-key object bearing one of
the declared operation names. -/
def UnionDiscriminantsClosed : Prop :=
  (∀ j : Json, (decodeBondingCurve j).isSome = true ↔
    (j = Json.str "linear" ∨ j = Json.str "exponential" ∨
     j = Json.str "constant_product")) ∧
  (∀ j : Json, (decodePoolType j).isSome = true ↔
    (j = Json.str "token" ∨ j = Json.str "nft" ∨ j = Json.str "trade")) ∧
  (∀ j : Json, (decodeTransactionType j).isSome = true ↔
    (j = Json.str "sell" ∨ j = Json.str "buy")) ∧
  (∀ j : Json, (decodeNftForTokensSource j).isSome = true ↔
    j = Json.str "infinity") ∧
  (∀ j : Json, (decodeTokensForNftSource j).isSome = true ↔
    j = Json.str "infinity") ∧
  (∀ (j : Json) (m : ExecuteMsg), decodeExecuteMsg j = some m →
    ∃ k v, j = Json.obj [(k, v)] ∧
      (k = "swap_nfts_for_tokens" ∨ k = "swap_tokens_for_nfts")) ∧
  (∀ (j : Json) (m : QueryMsg), decodeQueryMsg j = some m →
    ∃ k v, j = Json.obj [(k, v)] ∧
      (k = "nfts_for_tokens" ∨ k = "tokens_for_nfts"))

/-- Claim C1: for every message/response shape declared in the two type
files, encoding a value to JSON and decoding it back yields the original
value, and decoding is rejected whenever a required field is missing or a
union discriminant is not one of the declared string literals. -/
theorem c1_schema_fidelity :
    SchemaRoundTrips ∧ RequiredFieldsEnforced ∧ UnionDiscriminantsClosed :=
  ⟨⟨rt_Config, rt_ConfigResponse, rt_InstantiateMsg, rt_NftSwap,
    rt_BondingCurve, rt_PoolType, rt_TransactionType, rt_PoolInfo,
    rt_PoolNftSwap, rt_PoolQuote, rt_PoolQuoteResponse, rt_Pool, rt_PoolPair,
    rt_PoolsByIdResponse, rt_PoolsResponse, rt_U128U64Tuple,
    rt_QueryOptionsForTupleOfUint128AndUint64, rt_QueryOptionsForUint64,
    rt_SwapParams, rt_TokenPayment, rt_NftPayment, rt_Swap, rt_SwapResponse,
    rt_RouterInstantiateMsg, rt_NftForTokensSource, rt_TokensForNftSource,
    rt_SellOrder, rt_SwapParamsForString, rt_ExecuteMsg, rt_QueryMsg,
    rt_NftForTokensQuote, rt_TokensForNftQuote⟩,
   ⟨req_Config, req_ConfigResponse, req_InstantiateMsg, req_NftSwap,
    req_PoolInfo, req_PoolNftSwap, req_PoolQuote, req_PoolQuoteResponse,
    req_PoolsByIdResponse, req_Pool, req_PoolsResponse, req_SwapParams,
    req_TokenPayment, req_NftPayment, req_Swap, req_SwapResponse,
    req_RouterInstantiateMsg, req_SellOrder, req_NftForTokensQuote,
    req_TokensForNftQuote, req_SwapNftsForTokensBody,
    req_SwapTokensForNftsBody, req_NftsForTokensBody, req_TokensForNftsBody⟩,
   ⟨u_BondingCurve, u_PoolType, u_TransactionType, u_NftForTokensSource,
    u_TokensForNftSource, dispatch_ExecuteMsg, dispatch_QueryMsg⟩⟩

/-- Witness for C1: the required-field property applied to the encoding of
a concrete `Config`. -/
theorem c1_schema_fidelity_witness :
    ((encodeConfig cfgEx).getField "denom").isSome = true ∧
    ((encodeConfig cfgEx).getField "marketplace_addr").isSome = true :=
  c1_schema_fidelity.2.1.1 (encodeConfig cfgEx) cfgEx (by rfl)

def spEx : SwapParams := { deadline := "1700000000000000000", robust := true }

/-- Claim C2: every field typed Uint128, Uint64, Decimal, or Timestamp in
the declared shapes is carried as a decimal string in the JSON encoding,
never as a native number. -/
theorem c2_monetary_strings :
    (∀ s : NftSwap,
      (encodeNftSwap s).getField "token_amount" = some (Json.str s.token_amount)) ∧
    (∀ p : PoolInfo,
      (encodePoolInfo p).getField "delta" = some (Json.str p.delta) ∧
      (encodePoolInfo p).getField "finders_fee_percent" =
        some (Json.str p.finders_fee_percent) ∧
      (encodePoolInfo p).getField "spot_price" = some (Json.str p.spot_price) ∧
      (encodePoolInfo p).getField "swap_fee_percent" =
        some (Json.str p.swap_fee_percent)) ∧
    (∀ q : PoolQuote,
      (encodePoolQuote q).getField "quote_price" = some (Json.str q.quote_price)) ∧
    (∀ p : Pool,
      (encodePool p).getField "delta" = some (Json.str p.delta) ∧
      (encodePool p).getField "finders_fee_percent" =
        some (Json.str p.finders_fee_percent) ∧
      (encodePool p).getField "spot_price" = some (Json.str p.spot_price) ∧
      (encodePool p).getField "swap_fee_percent" =
        some (Json.str p.swap_fee_percent) ∧
      (encodePool p).getField "total_tokens" = some (Json.str p.total_tokens)) ∧
    (∀ (de : Option Bool) (li : Option Int) (u : Uint128) (n : Int),
      (encodeQueryOptionsForTupleOfUint128AndUint64
          ⟨de, li, some (u, n)⟩).getField "start_after" =
        some (Json.arr [Json.str u, Json.num n])) ∧
    (∀ p : SwapParams,
      (encodeSwapParams p).getField "deadline" = some (Json.str p.deadline)) ∧
    (∀ s : Swap,
      (encodeSwap s).getField "network_fee" = some (Json.str s.network_fee) ∧
      (encodeSwap s).getField "spot_price" = some (Json.str s.spot_price)) ∧
    (∀ p : TokenPayment,
      (encodeTokenPayment p).getField "amount" = some (Json.str p.amount)) ∧
    (∀ o : SellOrder,
      (encodeSellOrder o).getField "min_output" = some (Json.str o.min_output)) ∧
    (∀ (c d : String) (f : Option (List TokensForNftSource)) (us : List Uint128)
        (sp : Option SwapParamsForString),
      ((encodeExecuteMsg (ExecuteMsg.swap_tokens_for_nfts c d f us sp)).getField
          "swap_tokens_for_nfts").bind (fun b => b.getField "max_inputs") =
        some (Json.arr (us.map Json.str))) ∧
    (∀ q : NftForTokensQuote,
      (encodeNftForTokensQuote q).getField "amount" = some (Json.str q.amount)) ∧
    (∀ q : TokensForNftQuote,
      (encodeTokensForNftQuote q).getField "amount" = some (Json.str q.amount)) :=
  ⟨fun _ => rfl,
   fun _ => ⟨rfl, rfl, rfl, rfl⟩,
   fun _ => rfl,
   fun _ => ⟨rfl, rfl, rfl, rfl, rfl⟩,
   fun _ _ _ _ => rfl,
   fun _ => rfl,
   fun _ => ⟨rfl, rfl⟩,
   fun _ => rfl,
   fun _ => rfl,
   fun _ _ _ _ _ => rfl,
   fun _ => rfl,
   fun _ => rfl⟩

/-- Claim C3 counterexample: `swapEx4` is a Swap value carrying all FOUR
payment breakdowns at once, and its encoding carries the extra required
field network_fee, so the claimed field list ("nothing else") and the
"up to three" bound are both violated. -/
theorem c3_swap_shape_counterexample :
    ¬ (Json.keys (encodeSwap swapEx4) =
        ["finder_payment", "nft_payment", "pool_id", "royalty_payment",
         "seller_payment", "spot_price", "transaction_type"] ∧
       numPayments swapEx4 ≤ 3) := by
  decide

/-- Claim C3 (amended): every Swap value consists of a transaction
direction, a resulting spot price, an associated pool id, a required
network fee, and up to FOUR conditional payment breakdowns (seller
payment, royalty payment, finder payment, NFT payment), each payment an
(address, amount) or (address, token-id) record — and nothing else. -/
theorem c3_swap_shape :
    (∀ s : Swap, Json.keys (encodeSwap s) =
      ["finder_payment", "network_fee", "nft_payment", "pool_id",
       "royalty_payment", "seller_payment", "spot_price", "transaction_type"]) ∧
    (∀ s : Swap, numPayments s ≤ 4) ∧
    (∀ p : TokenPayment, Json.keys (encodeTokenPayment p) = ["address", "amount"]) ∧
    (∀ p : NftPayment, Json.keys (encodeNftPayment p) = ["address", "nft_token_id"]) :=
  ⟨fun _ => rfl,
   fun s => by unfold numPayments; split_ifs <;> omega,
   fun _ => rfl,
   fun _ => rfl⟩

/-- Claim C4 counterexample: the router's SwapParamsForString decodes the
empty object (both of its fields are optional) and its shape has no
deadline field at all. -/
theorem c4_swap_params_counterexample :
    decodeSwapParamsForString (Json.obj []) =
      some { asset_recipient := none, robust := none } ∧
    (encodeSwapParamsForString { asset_recipient := none, robust := none }).getField
      "deadline" = none :=
  ⟨rfl, rfl⟩

/-- Claim C4 (amended): SwapParams of the pool contract consists of exactly
the two required fields deadline (a timestamp string) and robust, while
SwapParamsForString of the router contract consists of exactly the two
OPTIONAL fields asset_recipient and robust, with no deadline. -/
theorem c4_swap_params_shape :
    (∀ p : SwapParams, Json.keys (encodeSwapParams p) = ["deadline", "robust"]) ∧
    (∀ (j : Json) (p : SwapParams), decodeSwapParams j = some p →
      (j.getField "deadline").isSome = true ∧
      (j.getField "robust").isSome = true) ∧
    (∀ p : SwapParamsForString,
      Json.keys (encodeSwapParamsForString p) = ["asset_recipient", "robust"]) ∧
    (∀ p : SwapParamsForString,
      (encodeSwapParamsForString p).getField "deadline" = none) ∧
    decodeSwapParamsForString (Json.obj []) =
      some { asset_recipient := none, robust := none } :=
  ⟨fun _ => rfl, req_SwapParams, fun _ => rfl, fun _ => rfl, rfl⟩

/-- Witness for C4 (amended): the required-field property of SwapParams at
a concrete value. -/
theorem c4_swap_params_shape_witness :
    ((encodeSwapParams spEx).getField "deadline").isSome = true ∧
    ((encodeSwapParams spEx).getField "robust").isSome = true :=
  c4_swap_params_shape.2.1 (encodeSwapParams spEx) spEx (by rfl)

/-- Claim C5 counterexample: PoolQuote's fields are exactly collection, id
and quote_price — it carries no source discriminator. -/
theorem c5_quote_counterexample :
    Json.keys (encodePoolQuote pqEx) = ["collection", "id", "quote_price"] ∧
    (encodePoolQuote pqEx).getField "source" = none :=
  ⟨rfl, rfl⟩

/-- Claim C5 (amended): PoolQuote carries a collection, a numeric pool id
and a quoted amount but NO source discriminator; the router quote types
NftForTokensQuote and TokensForNftQuote carry address, amount and a source
discriminator. -/
theorem c5_quote_shapes :
    (∀ q : PoolQuote,
      Json.keys (encodePoolQuote q) = ["collection", "id", "quote_price"] ∧
      (encodePoolQuote q).getField "source" = none) ∧
    (∀ q : NftForTokensQuote,
      Json.keys (encodeNftForTokensQuote q) = ["address", "amount", "source"] ∧
      (encodeNftForTokensQuote q).getField "source" =
        some (encodeNftForTokensSource q.source)) ∧
    (∀ q : TokensForNftQuote,
      Json.keys (encodeTokensForNftQuote q) = ["address", "amount", "source"] ∧
      (encodeTokensForNftQuote q).getField "source" =
        some (encodeTokensForNftSource q.source)) :=
  ⟨fun _ => ⟨rfl, rfl⟩, fun _ => ⟨rfl, rfl⟩, fun _ => ⟨rfl, rfl⟩⟩

/-- Claim C6: the enumerated string unions are closed — each decoder
accepts exactly the declared literals, and every inhabitant of each union
type is one of the declared alternatives. -/
theorem c6_closed_unions :
    (∀ j : Json, (decodePoolType j).isSome = true ↔
      (j = Json.str "token" ∨ j = Json.str "nft" ∨ j = Json.str "trade")) ∧
    (∀ j : Json, (decodeBondingCurve j).isSome = true ↔
      (j = Json.str "linear" ∨ j = Json.str "exponential" ∨
       j = Json.str "constant_product")) ∧
    (∀ j : Json, (decodeTransactionType j).isSome = true ↔
      (j = Json.str "sell" ∨ j = Json.str "buy")) ∧
    (∀ j : Json, (decodeNftForTokensSource j).isSome = true ↔
      j = Json.str "infinity") ∧
    (∀ j : Json, (decodeTokensForNftSource j).isSome = true ↔
      j = Json.str "infinity") ∧
    (∀ p : PoolType, p = PoolType.token ∨ p = PoolType.nft ∨ p = PoolType.trade) ∧
    (∀ b : BondingCurve, b = BondingCurve.linear ∨ b = BondingCurve.exponential ∨
      b = BondingCurve.constant_product) ∧
    (∀ t : TransactionType, t = TransactionType.sell ∨ t = TransactionType.buy) ∧
    (∀ s : NftForTokensSource, s = NftForTokensSource.infinity) ∧
    (∀ s : TokensForNftSource, s = TokensForNftSource.infinity) :=
  ⟨u_PoolType, u_BondingCurve, u_TransactionType, u_NftForTokensSource,
   u_TokensForNftSource, mem_PoolType, mem_BondingCurve, mem_TransactionType,
   mem_NftForTokensSource, mem_TokensForNftSource⟩

/-- Claim C7: every ExecuteMsg/QueryMsg value of the router serializes to
an object with exactly one operation key, and only single-key objects with
a declared operation name are accepted by the decoders. -/
theorem c7_tagged_unions :
    (∀ m : ExecuteMsg,
      Json.keys (encodeExecuteMsg m) = ["swap_nfts_for_tokens"] ∨
      Json.keys (encodeExecuteMsg m) = ["swap_tokens_for_nfts"]) ∧
    (∀ (j : Json) (m : ExecuteMsg), decodeExecuteMsg j = some m →
      ∃ k v, j = Json.obj [(k, v)] ∧
        (k = "swap_nfts_for_tokens" ∨ k = "swap_tokens_for_nfts")) ∧
    (∀ m : QueryMsg,
      Json.keys (encodeQueryMsg m) = ["nfts_for_tokens"] ∨
      Json.keys (encodeQueryMsg m) = ["tokens_for_nfts"]) ∧
    (∀ (j : Json) (m : QueryMsg), decodeQueryMsg j = some m →
      ∃ k v, j = Json.obj [(k, v)] ∧
        (k = "nfts_for_tokens" ∨ k = "tokens_for_nfts")) :=
  ⟨keys_ExecuteMsg, dispatch_ExecuteMsg, keys_QueryMsg, dispatch_QueryMsg⟩

/-- Witness for C7: the single-key property applied to the encoding of a
concrete ExecuteMsg. -/
theorem c7_tagged_unions_witness :
    ∃ k v, encodeExecuteMsg execEx = Json.obj [(k, v)] ∧
      (k = "swap_nfts_for_tokens" ∨ k = "swap_tokens_for_nfts") :=
  c7_tagged_unions.2.1 (encodeExecuteMsg execEx) execEx (by rfl)

/-- Claim C8: pool identifiers and pagination/query limit fields are
native JSON numbers, not decimal strings, and the number decoder used for
them rejects strings. -/
theorem c8_numeric_ids :
    (∀ p : Pool, (encodePool p).getField "id" = some (Json.num p.id)) ∧
    (∀ q : PoolQuote, (encodePoolQuote q).getField "id" = some (Json.num q.id)) ∧
    (∀ p : PoolNftSwap,
      (encodePoolNftSwap p).getField "pool_id" = some (Json.num p.pool_id)) ∧
    (∀ s : Swap, (encodeSwap s).getField "pool_id" = some (Json.num s.pool_id)) ∧
    (∀ (c d : String) (f : Option (List NftForTokensSource)) (li : Int),
      ((encodeQueryMsg (QueryMsg.nfts_for_tokens c d f li)).getField
          "nfts_for_tokens").bind (fun b => b.getField "limit") =
        some (Json.num li)) ∧
    (∀ (c d : String) (f : Option (List TokensForNftSource)) (li : Int),
      ((encodeQueryMsg (QueryMsg.tokens_for_nfts c d f li)).getField
          "tokens_for_nfts").bind (fun b => b.getField "limit") =
        some (Json.num li)) ∧
    (∀ (de : Option Bool) (n : Int) (sa : Option (Uint128 × Int)),
      (encodeQueryOptionsForTupleOfUint128AndUint64 ⟨de, some n, sa⟩).getField
        "limit" = some (Json.num n)) ∧
    (∀ (de : Option Bool) (n : Int) (sa : Option Int),
      (encodeQueryOptionsForUint64 ⟨de, some n, sa⟩).getField "limit" =
        some (Json.num n)) ∧
    (∀ s : String, Json.asNum (Json.str s) = none) :=
  ⟨fun _ => rfl, fun _ => rfl, fun _ => rfl, fun _ => rfl,
   fun _ _ _ _ => rfl, fun _ _ _ _ => rfl, fun _ _ _ => rfl, fun _ _ _ => rfl,
   fun _ => rfl⟩

/-- Claim C9: every Swap carries a required network_fee of amount type
Uint128 — its encoding always bears the field, and no input missing it
decodes. -/
theorem c9_network_fee :
    (∀ s : Swap,
      (encodeSwap s).getField "network_fee" = some (Json.str s.network_fee)) ∧
    (∀ (j : Json) (s : Swap), decodeSwap j = some s →
      (j.getField "network_fee").isSome = true) :=
  ⟨fun _ => rfl, fun j s h => (req_Swap j s h).1⟩

/-- Witness for C9: the network_fee field of a concrete encoded Swap. -/
theorem c9_network_fee_witness :
    ((encodeSwap swapEx4).getField "network_fee").isSome = true :=
  c9_network_fee.2 (encodeSwap swapEx4) swapEx4 (by rfl)

/-- Claim C10: PoolsByIdResponse pairs each queried id with `Pool | null`:
a missing pool appears in place as an explicit null entry, which both
encodes and decodes successfully rather than being omitted or erroring. -/
theorem c10_pools_by_id :
    (∀ r : PoolsByIdResponse,
      decodePoolsByIdResponse (encodePoolsByIdResponse r) = some r) ∧
    (∀ i : Int, encodePoolPair (i, none) = Json.arr [Json.num i, Json.null]) ∧
    (∀ i : Int, decodePoolPair (Json.arr [Json.num i, Json.null]) = some (i, none)) ∧
    (∀ ps : List (Int × Option Pool),
      (encodePoolsByIdResponse ⟨ps⟩).getField "pools" =
        some (Json.arr (ps.map encodePoolPair))) :=
  ⟨rt_PoolsByIdResponse, fun _ => rfl, fun _ => rfl, fun _ => rfl⟩
